import Mathlib

/-!
Verification of the markany-10team diet-coaching service.

This file gives a shallow embedding, in Lean 4 over exact rationals, of the
parts of the repository the claims are about:

* the helper formulas of src/utils/helpers.py (BMI, Harris-Benedict BMR,
  TDEE with the 3-tier activity table, decimal rounding);
* the target-calorie computations of backend/src/pipelines/coaching_pipeline.py
  (_calculate_target_calories), agents/tools/user_tools.py (the recompute
  inside update_user_goals), and backend/agents/tools/user_rag_tools.py
  (create_user_profile, update_user_weight);
* the food-analysis pipeline of src/pipelines/food_analysis_pipeline.py
  (process_meal_image, _calculate_total_nutrition, _create_default_food_item,
  get_meal_analysis_summary), with the three external collaborators (S3
  upload, Bedrock analysis, DynamoDB save) abstracted as an explicit
  environment of their results and the S3 delete side effect recorded in the
  returned outcome;
* the tool registry of backend/agents/tools/tool_registry.py;
* the conversation memory of agents/memory/conversation_memory.py;
* the schedule-impact analysis of backend/agents/tools/schedule_tools.py;
* the image MIME sniffing of backend/agents/core/bedrock_agent.py.

Python floats are modelled as exact rationals; Python's round(x, n) is
modelled as decimal rounding (half up).  No theorem below depends on a
half-way tie, so the tie-breaking convention is immaterial to every verdict.
-/

namespace DietCoach

set_option maxRecDepth 8000

/-- Decimal rounding to 2 places, modelling Python round(x, 2). -/
def round2 (q : ℚ) : ℚ := ((Int.floor (q * 100 + 1/2) : ℤ) : ℚ) / 100

/-- Decimal rounding to 1 place, modelling Python round(x, 1). -/
def round1 (q : ℚ) : ℚ := ((Int.floor (q * 10 + 1/2) : ℤ) : ℚ) / 10

/-- Python str.lower(), modelled on the ASCII range (every string the
claims quantify over or instantiate is ASCII-cased). -/
def py_lower (s : String) : String := ⟨s.data.map Char.toLower⟩

/-! ## Data model (backend/src/models/data_models.py) -/

/-- HealthGoal enumeration (data_models.py lines 12-17). -/
inductive HealthGoal where
  | weight_loss
  | muscle_gain
  | body_profile
  | health_maintenance
deriving DecidableEq

/-- The string value of a HealthGoal member (str-valued Enum). -/
def HealthGoal.value : HealthGoal → String
  | .weight_loss => "weight_loss"
  | .muscle_gain => "muscle_gain"
  | .body_profile => "body_profile"
  | .health_maintenance => "health_maintenance"

/-- NutritionInfo (data_models.py lines 30-37): calories/carbohydrates/
protein/fat are required floats, fiber/sodium optional. -/
structure NutritionInfo where
  calories : ℚ
  carbohydrates : ℚ
  protein : ℚ
  fat : ℚ
  fiber : Option ℚ
  sodium : Option ℚ
deriving DecidableEq

/-- FoodItem (data_models.py lines 40-45). -/
structure FoodItem where
  name : String
  quantity : String
  nutrition : NutritionInfo
  confidence : ℚ
deriving DecidableEq

/-- MealRecord (data_models.py lines 48-58).  The datetime timestamp is
modelled as an abstract Nat tick. -/
structure MealRecord where
  user_id : String
  meal_id : String
  timestamp : Nat
  meal_type : String
  image_url : Option String
  foods : List FoodItem
  total_nutrition : NutritionInfo
  people_count : Nat
  notes : Option String
deriving DecidableEq

/-- UserProfile (data_models.py lines 61-76).  age is an int in the source;
it is modelled as a rational so that it can enter the BMR formula directly.
preferred/disliked exercises are modelled by their string enum values.
created_at/updated_at datetimes are abstract Nat ticks. -/
structure UserProfile where
  user_id : String
  name : String
  age : ℚ
  gender : String
  height : ℚ
  weight : ℚ
  health_goal : HealthGoal
  preferred_exercises : List String
  disliked_exercises : List String
  activity_level : String
  dietary_restrictions : List String
  target_calories : Option ℚ
  created_at : Nat
  updated_at : Nat
deriving DecidableEq

/-! ## Helper formulas (src/utils/helpers.py)

backend/src/pipelines/coaching_pipeline.py imports calculate_bmr and
calculate_tdee from its sibling utils.helpers module, which is not present
under the provided sources; src/utils/helpers.py is present and spec §4.2
specifies a single helpers module with exactly these formulas, so the
definitions below (taken verbatim from src/utils/helpers.py) are also
modelled from the spec for the coaching pipeline's import. -/

/-- calculate_bmi (helpers.py lines 117-129). -/
def calculate_bmi (weight height : ℚ) : ℚ :=
  round2 (weight / ((height / 100) ^ 2))

/-- calculate_bmr (helpers.py lines 152-170): Harris-Benedict, gender
compared case-insensitively against "male", any other value takes the
female branch; rounded to 2 decimals. -/
def calculate_bmr (weight height age : ℚ) (gender : String) : ℚ :=
  if py_lower gender = "male" then
    round2 (88.362 + 13.397 * weight + 4.799 * height - 5.677 * age)
  else
    round2 (447.593 + 9.247 * weight + 3.098 * height - 4.330 * age)

/-- calculate_tdee (helpers.py lines 173-191): 3-tier multiplier table with
case-insensitive lookup, default 1.55; rounded to 2 decimals. -/
def calculate_tdee (bmr : ℚ) (activity_level : String) : ℚ :=
  let m : ℚ :=
    if py_lower activity_level = "low" then 1.2
    else if py_lower activity_level = "moderate" then 1.55
    else if py_lower activity_level = "high" then 1.9
    else 1.55
  round2 (bmr * m)

/-! ## Target-calorie computation at its three claimed call sites -/

/-- CoachingPipeline._calculate_target_calories
(coaching_pipeline.py lines 273-290): helpers BMR and TDEE, then the goal
adjustment branches on user_profile.health_goal.value. -/
def coaching_calculate_target_calories (p : UserProfile) : ℚ :=
  let bmr := calculate_bmr p.weight p.height p.age p.gender
  let tdee := calculate_tdee bmr p.activity_level
  if p.health_goal.value = "weight_loss" then tdee * 0.8
  else if p.health_goal.value = "muscle_gain" then tdee * 1.1
  else tdee

/-- The target-calorie recompute inside update_user_goals
(user_tools.py lines 128-148): helpers BMR and TDEE, goal adjustment
branching on the HealthGoal enum members. -/
def update_user_goals_target_calories (p : UserProfile) : ℚ :=
  let bmr := calculate_bmr p.weight p.height p.age p.gender
  let tdee := calculate_tdee bmr p.activity_level
  if p.health_goal = HealthGoal.weight_loss then tdee * 0.8
  else if p.health_goal = HealthGoal.muscle_gain then tdee * 1.1
  else tdee

/-- The 5-tier activity multiplier table inlined in the RAG tools'
create_user_profile (user_rag_tools.py lines 44-52): case-SENSITIVE
dict lookup with default 1.55. -/
def rag_activity_multiplier (activity_level : String) : ℚ :=
  if activity_level = "SEDENTARY" then 1.2
  else if activity_level = "LIGHT" then 1.375
  else if activity_level = "MODERATE" then 1.55
  else if activity_level = "ACTIVE" then 1.725
  else if activity_level = "VERY_ACTIVE" then 1.9
  else 1.55

/-- The Harris-Benedict BMR inlined in the RAG tools' create_user_profile
(user_rag_tools.py lines 37-41).  Unlike helpers.calculate_bmr it is NOT
rounded to 2 decimals. -/
def rag_bmr (weight height age : ℚ) (gender : String) : ℚ :=
  if py_lower gender = "male" then
    88.362 + 13.397 * weight + 4.799 * height - 5.677 * age
  else
    447.593 + 9.247 * weight + 3.098 * height - 4.330 * age

/-- The target-calorie computation of the RAG tools' create_user_profile
(user_rag_tools.py lines 37-60): unrounded BMR, 5-tier table, unrounded
TDEE, goal adjustment branching on the health_goal string. -/
def rag_target_calories (weight height age : ℚ)
    (gender activity_level health_goal : String) : ℚ :=
  let tdee := rag_bmr weight height age gender *
    rag_activity_multiplier activity_level
  if health_goal = "weight_loss" then tdee * 0.8
  else if health_goal = "muscle_gain" then tdee * 1.1
  else tdee

/-! ## C1: the goal-adjustment rule across call sites -/

/-- A concrete profile used to compare the call sites on identical inputs:
weight 70 kg, height 175 cm, age 30, gender "male", activity level "LIGHT",
weight-loss goal. -/
def c1_profile : UserProfile :=
  { user_id := "user_001", name := "tester", age := 30, gender := "male",
    height := 175, weight := 70, health_goal := HealthGoal.weight_loss,
    preferred_exercises := ["gym"], disliked_exercises := [],
    activity_level := "LIGHT", dietary_restrictions := [],
    target_calories := none, created_at := 0, updated_at := 0 }

/-- C1 counterexample: on identical inputs (70 kg, 175 cm, 30 y, male,
activity "LIGHT", weight-loss goal) the RAG tools' create_user_profile and
user_tools' update_user_goals compute DIFFERENT target calories: the helpers
path rounds the BMR and falls back to the 1.55 multiplier (its 3-tier table
has no "light" key), while the RAG path uses the unrounded BMR and the
1.375 multiplier from its 5-tier table. -/
theorem target_calories_call_sites_differ_cex :
    rag_target_calories c1_profile.weight c1_profile.height c1_profile.age
        c1_profile.gender c1_profile.activity_level c1_profile.health_goal.value ≠
      update_user_goals_target_calories c1_profile := by
  with_unfolding_all decide

/-- C1 amended: every call site applies the goal-adjustment multipliers
(TDEE × 0.8 for weight_loss, × 1.1 for muscle_gain, × 1.0 otherwise) to its
own TDEE, and the two helpers-based sites (the coaching pipeline's
_calculate_target_calories and the recompute in user_tools'
update_user_goals) produce the identical number for identical inputs; the
RAG tools' create_user_profile applies the same multipliers but to a
differently computed TDEE, so it does not agree with the other two in
general. -/
theorem target_calories_goal_adjustment_rule (p : UserProfile) :
    coaching_calculate_target_calories p = update_user_goals_target_calories p ∧
    (p.health_goal = HealthGoal.weight_loss →
      coaching_calculate_target_calories p =
        calculate_tdee (calculate_bmr p.weight p.height p.age p.gender) p.activity_level * 0.8 ∧
      rag_target_calories p.weight p.height p.age p.gender p.activity_level p.health_goal.value =
        rag_bmr p.weight p.height p.age p.gender * rag_activity_multiplier p.activity_level * 0.8) ∧
    (p.health_goal = HealthGoal.muscle_gain →
      coaching_calculate_target_calories p =
        calculate_tdee (calculate_bmr p.weight p.height p.age p.gender) p.activity_level * 1.1 ∧
      rag_target_calories p.weight p.height p.age p.gender p.activity_level p.health_goal.value =
        rag_bmr p.weight p.height p.age p.gender * rag_activity_multiplier p.activity_level * 1.1) ∧
    (p.health_goal ≠ HealthGoal.weight_loss → p.health_goal ≠ HealthGoal.muscle_gain →
      coaching_calculate_target_calories p =
        calculate_tdee (calculate_bmr p.weight p.height p.age p.gender) p.activity_level ∧
      rag_target_calories p.weight p.height p.age p.gender p.activity_level p.health_goal.value =
        rag_bmr p.weight p.height p.age p.gender * rag_activity_multiplier p.activity_level) := by
  cases hg : p.health_goal <;>
    simp [coaching_calculate_target_calories, update_user_goals_target_calories,
      rag_target_calories, HealthGoal.value, hg, mul_assoc]

/-- C1 amended witness: at the concrete profile the two helpers-based sites
agree, and the weight-loss branch multiplies TDEE by 0.8. -/
theorem target_calories_goal_adjustment_rule_witness :
    coaching_calculate_target_calories c1_profile =
      update_user_goals_target_calories c1_profile ∧
    coaching_calculate_target_calories c1_profile =
      calculate_tdee (calculate_bmr 70 175 30 "male") "LIGHT" * 0.8 :=
  ⟨(target_calories_goal_adjustment_rule c1_profile).1,
    ((target_calories_goal_adjustment_rule c1_profile).2.1 rfl).1⟩

/-! ## Food analysis pipeline (src/pipelines/food_analysis_pipeline.py) -/

/-- FoodAnalysisPipeline._create_default_food_item (lines 270-287):
the placeholder substituted when LLM analysis yields no food items. -/
def default_food_item : FoodItem :=
  { name := "분석되지 않은 음식", quantity := "1인분",
    nutrition := { calories := 300, carbohydrates := 30, protein := 15,
                   fat := 10, fiber := none, sodium := none },
    confidence := 0.1 }

/-- FoodAnalysisPipeline._calculate_total_nutrition (lines 244-268):
component-wise sums (None fiber/sodium contribute 0 through the
Python expression (x or 0)), rounded to 2 decimals; fiber/sodium are set
only when their sum is strictly positive, else left None. -/
def calculate_total_nutrition (food_items : List FoodItem) : NutritionInfo :=
  let total_calories := (food_items.map (fun f => f.nutrition.calories)).sum
  let total_carbs := (food_items.map (fun f => f.nutrition.carbohydrates)).sum
  let total_protein := (food_items.map (fun f => f.nutrition.protein)).sum
  let total_fat := (food_items.map (fun f => f.nutrition.fat)).sum
  let total_fiber := (food_items.map (fun f => f.nutrition.fiber.getD 0)).sum
  let total_sodium := (food_items.map (fun f => f.nutrition.sodium.getD 0)).sum
  { calories := round2 total_calories
    carbohydrates := round2 total_carbs
    protein := round2 total_protein
    fat := round2 total_fat
    fiber := if total_fiber > 0 then some (round2 total_fiber) else none
    sodium := if total_sodium > 0 then some (round2 total_sodium) else none }

/-- The results of the pipeline's three external collaborators for one run:
the S3 upload (URL, or None on failure), the Bedrock food analysis (empty
list on failure or when nothing is recognised), and the DynamoDB save
(success flag). -/
structure PipelineEnv where
  upload_result : Option String
  analysis_result : List FoodItem
  save_result : Bool
deriving DecidableEq

/-- What one run of process_meal_image produces: the returned Optional
MealRecord, plus the list of S3 URLs it deleted (the rollback side
effect, recorded explicitly). -/
structure PipelineOutcome where
  record : Option MealRecord
  deleted_images : List String
deriving DecidableEq

/-- FoodAnalysisPipeline.process_meal_image (lines 28-113): abort with None
if the upload failed; substitute the default food item if the analysis
returned no items; build the MealRecord; on save failure delete the
just-uploaded image and return None. -/
def process_meal_image (env : PipelineEnv) (user_id meal_id : String)
    (timestamp : Nat) (meal_type : String) (people_count : Nat)
    (notes : Option String) : PipelineOutcome :=
  match env.upload_result with
  | none => { record := none, deleted_images := [] }
  | some image_url =>
    let food_items :=
      if env.analysis_result.isEmpty then [default_food_item]
      else env.analysis_result
    let total_nutrition := calculate_total_nutrition food_items
    let meal_record : MealRecord :=
      { user_id := user_id, meal_id := meal_id, timestamp := timestamp,
        meal_type := meal_type, image_url := some image_url,
        foods := food_items, total_nutrition := total_nutrition,
        people_count := people_count, notes := notes }
    if env.save_result then { record := some meal_record, deleted_images := [] }
    else { record := none, deleted_images := [image_url] }

/-! ## C2: default food item and no empty foods list -/

/-- C2: when the analysis yields zero items, any returned record carries
exactly the one placeholder item; and no returned record ever has an empty
foods list. -/
theorem process_meal_image_never_empty_foods (env : PipelineEnv)
    (user_id meal_id : String) (timestamp : Nat) (meal_type : String)
    (people_count : Nat) (notes : Option String) :
    (env.analysis_result = [] →
      ∀ r, (process_meal_image env user_id meal_id timestamp meal_type
              people_count notes).record = some r →
        r.foods = [default_food_item]) ∧
    (∀ r, (process_meal_image env user_id meal_id timestamp meal_type
            people_count notes).record = some r →
      r.foods ≠ []) := by
  obtain ⟨up, an, sv⟩ := env
  constructor
  · rintro rfl r hr
    cases up with
    | none => simp [process_meal_image] at hr
    | some u =>
      cases sv with
      | false => simp [process_meal_image] at hr
      | true =>
        simp [process_meal_image] at hr
        simp [← hr]
  · intro r hr
    cases up with
    | none => simp [process_meal_image] at hr
    | some u =>
      cases sv with
      | false => simp [process_meal_image] at hr
      | true =>
        cases an with
        | nil =>
          simp [process_meal_image] at hr
          simp [← hr]
        | cons a as =>
          simp [process_meal_image] at hr
          simp [← hr]

/-- C2 witness: a run with a successful upload, an empty analysis and a
successful save returns a record whose foods list is exactly the
placeholder. -/
theorem process_meal_image_never_empty_foods_witness :
    ({ user_id := "u", meal_id := "meal_1", timestamp := 0,
       meal_type := "아침", image_url := some "https://img/1.jpg",
       foods := [default_food_item],
       total_nutrition := calculate_total_nutrition [default_food_item],
       people_count := 1, notes := none } : MealRecord).foods =
      [default_food_item] :=
  (process_meal_image_never_empty_foods
      ⟨some "https://img/1.jpg", [], true⟩ "u" "meal_1" 0 "아침" 1 none).1
    rfl _ rfl

/-! ## C3: rollback on save failure -/

/-- C3: whenever the upload succeeded with URL u and the DynamoDB save
failed, the pipeline deletes exactly u from S3 and returns None. -/
theorem process_meal_image_rollback_on_save_failure (env : PipelineEnv)
    (u : String) (user_id meal_id : String) (timestamp : Nat)
    (meal_type : String) (people_count : Nat) (notes : Option String)
    (hup : env.upload_result = some u) (hsv : env.save_result = false) :
    process_meal_image env user_id meal_id timestamp meal_type people_count
        notes = { record := none, deleted_images := [u] } := by
  obtain ⟨up, an, sv⟩ := env
  cases hup
  cases hsv
  simp [process_meal_image]

/-- C3 witness: a concrete run with a successful upload and a failed save
returns no record and deletes exactly the uploaded URL. -/
theorem process_meal_image_rollback_on_save_failure_witness :
    process_meal_image ⟨some "https://img/2.jpg", [default_food_item], false⟩
        "u" "meal_2" 0 "점심" 2 none =
      { record := none, deleted_images := ["https://img/2.jpg"] } :=
  process_meal_image_rollback_on_save_failure _ "https://img/2.jpg"
    "u" "meal_2" 0 "점심" 2 none rfl rfl

/-! ## C4: nutrition aggregation -/

/-- C4: for a non-empty list of food items the total is the component-wise
sum rounded to 2 decimals; fiber/sodium appear on the total only if some
item carries the field, and are left absent when no item does. -/
theorem calculate_total_nutrition_spec (items : List FoodItem)
    (hne : items ≠ []) :
    (calculate_total_nutrition items).calories =
      round2 ((items.map (fun f => f.nutrition.calories)).sum) ∧
    (calculate_total_nutrition items).carbohydrates =
      round2 ((items.map (fun f => f.nutrition.carbohydrates)).sum) ∧
    (calculate_total_nutrition items).protein =
      round2 ((items.map (fun f => f.nutrition.protein)).sum) ∧
    (calculate_total_nutrition items).fat =
      round2 ((items.map (fun f => f.nutrition.fat)).sum) ∧
    ((∀ f ∈ items, f.nutrition.fiber = none) →
      (calculate_total_nutrition items).fiber = none) ∧
    ((calculate_total_nutrition items).fiber ≠ none →
      ∃ f ∈ items, f.nutrition.fiber ≠ none) ∧
    ((∀ f ∈ items, f.nutrition.sodium = none) →
      (calculate_total_nutrition items).sodium = none) ∧
    ((calculate_total_nutrition items).sodium ≠ none →
      ∃ f ∈ items, f.nutrition.sodium ≠ none) := by
  have hfib : (∀ f ∈ items, f.nutrition.fiber = none) →
      (items.map (fun f => f.nutrition.fiber.getD 0)).sum = 0 := by
    intro h
    apply List.sum_eq_zero
    intro x hx
    obtain ⟨f, hf, rfl⟩ := List.mem_map.mp hx
    rw [h f hf]
    rfl
  have hsod : (∀ f ∈ items, f.nutrition.sodium = none) →
      (items.map (fun f => f.nutrition.sodium.getD 0)).sum = 0 := by
    intro h
    apply List.sum_eq_zero
    intro x hx
    obtain ⟨f, hf, rfl⟩ := List.mem_map.mp hx
    rw [h f hf]
    rfl
  refine ⟨rfl, rfl, rfl, rfl, ?_, ?_, ?_, ?_⟩
  · intro h
    simp [calculate_total_nutrition, hfib h]
  · intro h
    by_contra hc
    push_neg at hc
    exact h (by simp [calculate_total_nutrition, hfib hc])
  · intro h
    simp [calculate_total_nutrition, hsod h]
  · intro h
    by_contra hc
    push_neg at hc
    exact h (by simp [calculate_total_nutrition, hsod hc])

/-- A concrete food item with 250 kcal, 15 g carbohydrates, 20 g protein,
10 g fat and no fiber/sodium fields. -/
def sample_food : FoodItem :=
  { name := "닭가슴살 샐러드", quantity := "1인분",
    nutrition := { calories := 250, carbohydrates := 15, protein := 20,
                   fat := 10, fiber := none, sodium := none },
    confidence := 0.9 }

/-- C4 witness: two copies of the sample item total exactly
{500, 30, 40, 20} with fiber and sodium absent. -/
theorem calculate_total_nutrition_spec_witness :
    (calculate_total_nutrition [sample_food, sample_food]).calories = 500 ∧
    (calculate_total_nutrition [sample_food, sample_food]).carbohydrates = 30 ∧
    (calculate_total_nutrition [sample_food, sample_food]).protein = 40 ∧
    (calculate_total_nutrition [sample_food, sample_food]).fat = 20 ∧
    (calculate_total_nutrition [sample_food, sample_food]).fiber = none ∧
    (calculate_total_nutrition [sample_food, sample_food]).sodium = none := by
  have h := calculate_total_nutrition_spec [sample_food, sample_food]
    (List.cons_ne_nil _ _)
  refine ⟨h.1.trans ?_, h.2.1.trans ?_, h.2.2.1.trans ?_, h.2.2.2.1.trans ?_,
    h.2.2.2.2.1 ?_, h.2.2.2.2.2.2.1 ?_⟩
  · with_unfolding_all decide
  · with_unfolding_all decide
  · with_unfolding_all decide
  · with_unfolding_all decide
  · with_unfolding_all decide
  · with_unfolding_all decide

/-! ## C5: update_user_weight (user_rag_tools.py lines 155-190) -/

/-- The dict returned by update_user_weight: on success it carries the old
and new weight, the delta and both BMIs (each rounded to 1 decimal; the
formatted Korean message, a rendering of the rounded delta, is not
modelled); on failure a Korean error message. -/
inductive WeightUpdateResult where
  | ok (old_weight new_weight weight_change old_bmi new_bmi : ℚ)
  | err (msg : String)
deriving DecidableEq

/-- update_user_weight (user_rag_tools.py lines 155-190): look up the
profile (None → error dict), mutate weight and updated_at in place,
recompute both BMIs from the stored height, save, and report.  The first
component is the profile object as mutated and passed to
save_user_profile; the save outcome is abstracted as the save_ok flag.
Note the function never touches target_calories. -/
def update_user_weight (profile : Option UserProfile) (new_weight : ℚ)
    (now : Nat) (save_ok : Bool) : Option UserProfile × WeightUpdateResult :=
  match profile with
  | none => (none, .err "사용자를 찾을 수 없습니다.")
  | some user_profile =>
    let old_weight := user_profile.weight
    let old_bmi := old_weight / ((user_profile.height / 100) ^ 2)
    let updated := { user_profile with weight := new_weight, updated_at := now }
    let new_bmi := new_weight / ((user_profile.height / 100) ^ 2)
    let weight_change := new_weight - old_weight
    if save_ok then
      (some updated,
        .ok old_weight new_weight (round1 weight_change) (round1 old_bmi)
          (round1 new_bmi))
    else (some updated, .err "체중 업데이트에 실패했습니다.")

/-- A stored profile whose target_calories is exactly the standard
recompute at its current weight of 70 kg (2102.632 kcal for 70 kg, 175 cm,
30 y, male, moderate activity, weight-loss goal). -/
def c5_profile : UserProfile :=
  { user_id := "user_005", name := "tester", age := 30, gender := "male",
    height := 175, weight := 70, health_goal := HealthGoal.weight_loss,
    preferred_exercises := ["gym"], disliked_exercises := [],
    activity_level := "moderate", dietary_restrictions := [],
    target_calories := some 2102.632, created_at := 0, updated_at := 0 }

/-- C5 counterexample: the stored target was consistent with the old
weight, yet after a successful update_user_weight to 80 kg the stored
profile still carries the old target_calories, which no longer matches a
recompute at the new weight — the weight update does not recompute
target_calories. -/
theorem update_user_weight_stale_target_calories_cex :
    c5_profile.target_calories =
      some (update_user_goals_target_calories c5_profile) ∧
    (update_user_weight (some c5_profile) 80 1 true).1 =
      some { c5_profile with weight := 80, updated_at := 1 } ∧
    ({ c5_profile with weight := 80, updated_at := 1 } : UserProfile).target_calories ≠
      some (update_user_goals_target_calories
        { c5_profile with weight := 80, updated_at := 1 }) := by
  have hm : py_lower "male" = "male" := by decide
  have hmod : py_lower "moderate" = "moderate" := by decide
  have h70 : update_user_goals_target_calories c5_profile = 2102.632 := by
    simp +decide [update_user_goals_target_calories, calculate_bmr,
      calculate_tdee, c5_profile, hm, hmod]
    norm_num [round2]
  have h80 : update_user_goals_target_calories
      { c5_profile with weight := 80, updated_at := 1 } = 2268.752 := by
    simp +decide [update_user_goals_target_calories, calculate_bmr,
      calculate_tdee, c5_profile, hm, hmod]
    norm_num [round2]
  refine ⟨?_, rfl, ?_⟩
  · rw [h70]
    rfl
  · rw [h80]
    simp [c5_profile]
    norm_num

/-- C5 amended: a successful update_user_weight stores the profile with the
new weight and the fresh updated_at, leaves target_calories exactly as it
was, and returns the delta together with both BMIs recomputed from the
stored height. -/
theorem update_user_weight_spec (p : UserProfile) (new_weight : ℚ)
    (now : Nat) :
    (update_user_weight (some p) new_weight now true).1 =
      some { p with weight := new_weight, updated_at := now } ∧
    ((update_user_weight (some p) new_weight now true).1.map
        (fun q => q.target_calories)) = some p.target_calories ∧
    (update_user_weight (some p) new_weight now true).2 =
      .ok p.weight new_weight (round1 (new_weight - p.weight))
        (round1 (p.weight / ((p.height / 100) ^ 2)))
        (round1 (new_weight / ((p.height / 100) ^ 2))) :=
  ⟨rfl, rfl, rfl⟩

/-! ## C6: tool registry (backend/agents/tools/tool_registry.py)

The bound callables themselves are not modelled (registration and counting
do not depend on them); a registered tool is its name, description and
declared parameter map. -/

/-- Tool (tool_registry.py lines 10-23), minus the callable. -/
structure Tool where
  name : String
  description : String
  parameters : List (String × String)
deriving DecidableEq

/-- _register_tool (tool_registry.py lines 161-182): Python dict assignment
self.tools[name] = tool — replace in place if the name exists, else append
(insertion order preserved, as Python dicts do). -/
def register_tool (tools : List Tool) (t : Tool) : List Tool :=
  if tools.any (fun x => x.name = t.name) then
    tools.map (fun x => if x.name = t.name then t else x)
  else tools ++ [t]

/-- The four diet-tool registrations (tool_registry.py lines 59-86). -/
def diet_tool_registrations : List Tool :=
  [ { name := "analyze_food_image",
      description := "업로드된 음식 사진을 분석하여 음식 종류, 칼로리, 영양소를 계산합니다",
      parameters := [("user_id", "string"), ("image_data", "bytes"), ("meal_type", "string")] },
    { name := "get_nutrition_history",
      description := "사용자의 과거 N일간 영양 섭취 기록을 조회합니다",
      parameters := [("user_id", "string"), ("days", "integer")] },
    { name := "calculate_daily_nutrition",
      description := "특정 날짜의 총 영양소 섭취량을 계산합니다",
      parameters := [("user_id", "string"), ("date", "string")] },
    { name := "save_meal_record",
      description := "새로운 식사 기록을 저장합니다",
      parameters := [("user_id", "string"), ("meal_data", "dict")] } ]

/-- The four coaching-tool registrations (tool_registry.py lines 88-115). -/
def coaching_tool_registrations : List Tool :=
  [ { name := "generate_personalized_advice",
      description := "사용자의 현재 상태를 분석하여 개인 맞춤형 조언을 생성합니다",
      parameters := [("user_id", "string"), ("context", "string")] },
    { name := "recommend_exercise",
      description := "사용자의 목표와 선호도에 맞는 운동을 추천합니다",
      parameters := [("user_id", "string"), ("current_activity", "string")] },
    { name := "check_health_progress",
      description := "사용자의 건강 목표 달성 진행상황을 확인합니다",
      parameters := [("user_id", "string"), ("period", "string")] },
    { name := "create_meal_plan",
      description := "사용자 목표에 맞는 식단 계획을 생성합니다",
      parameters := [("user_id", "string"), ("duration", "string"), ("preferences", "list")] } ]

/-- The three schedule-tool registrations (tool_registry.py lines 117-137). -/
def schedule_tool_registrations : List Tool :=
  [ { name := "check_upcoming_events",
      description := "향후 일정에서 회식, 약속 등을 확인합니다",
      parameters := [("user_id", "string"), ("days_ahead", "integer")] },
    { name := "set_meal_reminder",
      description := "식사 시간 알림을 설정합니다",
      parameters := [("user_id", "string"), ("meal_type", "string"), ("time", "string")] },
    { name := "analyze_schedule_impact",
      description := "예정된 일정이 식단에 미치는 영향을 분석합니다",
      parameters := [("user_id", "string"), ("event_type", "string"), ("date", "string")] } ]

/-- The three user-tool registrations (tool_registry.py lines 139-159). -/
def user_tool_registrations : List Tool :=
  [ { name := "get_user_profile",
      description := "사용자의 프로필 정보를 조회합니다",
      parameters := [("user_id", "string")] },
    { name := "update_user_goals",
      description := "사용자의 건강 목표를 업데이트합니다",
      parameters := [("user_id", "string"), ("new_goals", "dict")] },
    { name := "get_user_preferences",
      description := "사용자의 음식 및 운동 선호도를 조회합니다",
      parameters := [("user_id", "string")] } ]

/-- _register_all_tools (tool_registry.py lines 40-159): the registrations,
in source order, starting from the empty registry built by the
constructor. -/
def registry_tools : List Tool :=
  (diet_tool_registrations ++ coaching_tool_registrations ++
    schedule_tool_registrations ++ user_tool_registrations).foldl
    register_tool []

/-- list_available_tools (tool_registry.py lines 224-230):
list(self.tools.keys()). -/
def list_available_tools : List String := registry_tools.map (fun t => t.name)

/-- C6 counterexample: the registry does not register 12 tools — the
constructor registers 4 + 4 + 3 + 3 = 14. -/
theorem tool_registry_count_cex : list_available_tools.length ≠ 12 := by
  decide

/-- C6 amended: at construction the registry eagerly registers exactly 14
tools — 4 diet, 4 coaching, 3 schedule and 3 user tools — and
list_available_tools returns exactly those registered names in
registration order. -/
theorem tool_registry_registers_fourteen_tools :
    list_available_tools =
      (diet_tool_registrations ++ coaching_tool_registrations ++
        schedule_tool_registrations ++ user_tool_registrations).map
        (fun t => t.name) ∧
    list_available_tools.length = 14 ∧
    diet_tool_registrations.length = 4 ∧
    coaching_tool_registrations.length = 4 ∧
    schedule_tool_registrations.length = 3 ∧
    user_tool_registrations.length = 3 := by
  refine ⟨?_, ?_, rfl, rfl, rfl, rfl⟩ <;> decide

/-! ## C7: conversation memory (agents/memory/conversation_memory.py) -/

/-- One saved conversation entry (conversation_memory.py lines 53-58):
timestamp (abstract tick), user message, assistant response, metadata. -/
structure ConversationEntry where
  timestamp : Nat
  user : String
  assistant : String
  metadata : List (String × String)
deriving DecidableEq

/-- ConversationMemory state (lines 23-30): the max_history bound fixed at
construction and the per-user histories (absent users map to []). -/
structure ConversationMemoryState where
  max_history : Nat
  conversations : String → List ConversationEntry

/-- The last n entries of a list: l.drop (l.length - n). -/
def takeLast (n : Nat) (l : List α) : List α := l.drop (l.length - n)

/-- Python l[-n:]: the last n entries for n > 0 but the WHOLE list for
n = 0 (l[-0:] is l[0:]). -/
def py_last_slice (n : Nat) (l : List α) : List α :=
  if n = 0 then l else takeLast n l

/-- save_conversation (conversation_memory.py lines 32-64): append the
entry to the user's history and, if the length now exceeds max_history,
keep the slice [-max_history:]. -/
def save_conversation (mem : ConversationMemoryState) (user_id : String)
    (e : ConversationEntry) : ConversationMemoryState :=
  let history := mem.conversations user_id ++ [e]
  let bounded :=
    if history.length > mem.max_history then
      py_last_slice mem.max_history history
    else history
  { mem with
    conversations := fun u => if u = user_id then bounded else mem.conversations u }

/-- A fresh ConversationMemory (constructor, lines 23-30). -/
def init_memory (max_history : Nat) : ConversationMemoryState :=
  { max_history := max_history, conversations := fun _ => [] }

/-- A sequence of save_conversation calls for one user. -/
def save_all (mem : ConversationMemoryState) (user_id : String)
    (entries : List ConversationEntry) : ConversationMemoryState :=
  entries.foldl (fun m e => save_conversation m user_id e) mem

theorem takeLast_append_takeLast (n : Nat) (xs ys : List α) :
    takeLast n (takeLast n xs ++ ys) = takeLast n (xs ++ ys) := by
  unfold takeLast
  rcases le_or_lt xs.length n with h | h
  · have hx : xs.length - n = 0 := by omega
    simp [hx]
  · have hlen : (xs.drop (xs.length - n)).length = n := by
      simp
      omega
    rw [List.length_append, List.length_append, hlen]
    have h1 : n + ys.length - n = ys.length := by omega
    have h2 : xs.length + ys.length - n = (xs.length - n) + ys.length := by
      omega
    rw [h1, h2, ← List.drop_drop,
      List.drop_append_of_le_length (by omega : xs.length - n ≤ xs.length)]

theorem save_conversation_user (mem : ConversationMemoryState)
    (user_id : String) (e : ConversationEntry)
    (hm : 0 < mem.max_history)
    (hl : (mem.conversations user_id).length ≤ mem.max_history) :
    (save_conversation mem user_id e).conversations user_id =
      takeLast mem.max_history (mem.conversations user_id ++ [e]) := by
  have hsel : (save_conversation mem user_id e).conversations user_id =
      (if (mem.conversations user_id ++ [e]).length > mem.max_history then
        py_last_slice mem.max_history (mem.conversations user_id ++ [e])
      else mem.conversations user_id ++ [e]) := by
    simp [save_conversation]
  rw [hsel]
  rcases le_or_lt (mem.conversations user_id ++ [e]).length mem.max_history
    with h | h
  · rw [if_neg (by omega)]
    unfold takeLast
    have h0 : (mem.conversations user_id ++ [e]).length - mem.max_history =
        0 := by omega
    rw [h0, List.drop_zero]
  · rw [if_pos h]
    unfold py_last_slice
    rw [if_neg (by omega)]

theorem save_all_user (user_id : String) (entries : List ConversationEntry)
    (mem : ConversationMemoryState) (hm : 0 < mem.max_history)
    (hl : (mem.conversations user_id).length ≤ mem.max_history) :
    (save_all mem user_id entries).conversations user_id =
      takeLast mem.max_history (mem.conversations user_id ++ entries) := by
  induction entries generalizing mem with
  | nil =>
    unfold save_all takeLast
    have : (mem.conversations user_id).length - mem.max_history = 0 := by omega
    simp [this]
  | cons e rest ih =>
    have hstep := save_conversation_user mem user_id e hm hl
    have hmax : (save_conversation mem user_id e).max_history =
        mem.max_history := rfl
    have hlen : ((save_conversation mem user_id e).conversations
        user_id).length ≤ (save_conversation mem user_id e).max_history := by
      rw [hstep, hmax]
      unfold takeLast
      simp
      omega
    have := ih (save_conversation mem user_id e) (by rw [hmax]; exact hm) hlen
    calc (save_all mem user_id (e :: rest)).conversations user_id
        = (save_all (save_conversation mem user_id e) user_id
            rest).conversations user_id := rfl
      _ = takeLast mem.max_history ((save_conversation mem user_id
            e).conversations user_id ++ rest) := by rw [this, hmax]
      _ = takeLast mem.max_history ((mem.conversations user_id ++ [e]) ++
            rest) := by rw [hstep, takeLast_append_takeLast]
      _ = takeLast mem.max_history (mem.conversations user_id ++
            (e :: rest)) := by rw [List.append_assoc]; rfl

/-- C7: starting from a fresh memory with positive max_history, the history
of a user never exceeds max_history after any sequence of
save_conversation calls; and with max_history = 20, appending 25 entries
leaves exactly the most recent 20 in original order (the oldest 5
dropped). -/
theorem conversation_memory_bounded (maxH : Nat) (hm : 0 < maxH)
    (user_id : String) (entries : List ConversationEntry) :
    ((save_all (init_memory maxH) user_id entries).conversations
        user_id).length ≤ maxH ∧
    (maxH = 20 → entries.length = 25 →
      (save_all (init_memory maxH) user_id entries).conversations user_id =
        entries.drop 5) := by
  have h := save_all_user user_id entries (init_memory maxH) hm
    (by simp [init_memory])
  have hinit : (init_memory maxH).conversations user_id ++ entries =
      entries := rfl
  have hmax : (init_memory maxH).max_history = maxH := rfl
  rw [hinit, hmax] at h
  constructor
  · rw [h]
    unfold takeLast
    simp
    omega
  · rintro rfl h25
    rw [h]
    unfold takeLast
    rw [h25]

/-- 25 concrete conversation entries. -/
def c7_entries : List ConversationEntry :=
  (List.range 25).map (fun i =>
    { timestamp := i, user := "질문", assistant := "응답", metadata := [] })

/-- C7 witness: saving the 25 concrete entries with max_history = 20 leaves
exactly their last 20. -/
theorem conversation_memory_bounded_witness :
    (save_all (init_memory 20) "user_007" c7_entries).conversations
        "user_007" = c7_entries.drop 5 :=
  (conversation_memory_bounded 20 (by decide) "user_007" c7_entries).2
    rfl (by decide)

/-! ## C8: schedule impact (backend/agents/tools/schedule_tools.py) -/

/-- Python's substring test (needle in haystack) over code points. -/
def contains_sub (needle haystack : String) : Bool :=
  decide (needle.data <:+: haystack.data)

/-- _generate_event_recommendations (schedule_tools.py lines 223-254). -/
def generate_event_recommendations (event_type : String)
    (calories target : ℚ) : List String :=
  if event_type = "회식" then
    if calories > target * 1.2 then
      [ "회식 전 가벼운 샐러드로 배를 채우세요",
        "알코올 섭취를 줄이고 물을 많이 드세요",
        "다음날 아침은 가볍게 드세요",
        "내일 추가 운동을 계획해보세요" ]
    else
      [ "적당한 양으로 즐기세요",
        "야채 위주로 선택하세요" ]
  else if event_type = "운동" then
    if calories < target * 0.8 then
      [ "운동 후 단백질 보충을 하세요",
        "충분한 수분 섭취를 하세요",
        "운동 전후 간식을 추가하세요" ]
    else
      [ "운동 후 가벼운 식사를 하세요",
        "근육 회복을 위해 단백질을 섭취하세요" ]
  else []

/-- The impact_analysis dict built by analyze_schedule_impact
(schedule_tools.py lines 159-192), one constructor per branch. -/
inductive ImpactAnalysis where
  | company_dinner (expected_additional_calories total_expected_calories
      target_calories excess_calories : ℚ) (recommendations : List String)
  | workout (expected_calories_burned net_calories target_calories
      calorie_deficit : ℚ) (recommendations : List String)
  | general (recommendations : List String)
deriving DecidableEq

/-- analyze_schedule_impact (schedule_tools.py lines 118-203), branch
selection and arithmetic.  current_calories is the day's total from the
DynamoDB summary; target_calories is computed at lines 147-155 as
calculate_tdee(calculate_bmr(profile), activity) — both are taken as
parameters here. -/
def analyze_schedule_impact (event_type : String)
    (current_calories target_calories : ℚ) : ImpactAnalysis :=
  if contains_sub "회식" event_type then
    let expected_calories : ℚ := 800
    let total_expected := current_calories + expected_calories
    .company_dinner expected_calories total_expected target_calories
      (max 0 (total_expected - target_calories))
      (generate_event_recommendations "회식" total_expected target_calories)
  else if contains_sub "운동" event_type then
    let calories_burned : ℚ := 300
    let net_calories := current_calories - calories_burned
    .workout calories_burned net_calories target_calories
      (max 0 (target_calories - net_calories))
      (generate_event_recommendations "운동" net_calories target_calories)
  else .general ["평소와 같은 식단 패턴을 유지하세요"]

/-- C8: for any event type containing "회식", the expected extra intake is
fixed at 800 kcal, the projection is current + 800, and the
recommendations are the four over-threshold suggestions exactly when the
projection strictly exceeds 1.2 × target, else the two moderation-only
suggestions. -/
theorem analyze_schedule_impact_company_dinner (event_type : String)
    (current_calories target_calories : ℚ)
    (h : contains_sub "회식" event_type = true) :
    analyze_schedule_impact event_type current_calories target_calories =
      .company_dinner 800 (current_calories + 800) target_calories
        (max 0 (current_calories + 800 - target_calories))
        (if current_calories + 800 > target_calories * 1.2 then
          [ "회식 전 가벼운 샐러드로 배를 채우세요",
            "알코올 섭취를 줄이고 물을 많이 드세요",
            "다음날 아침은 가볍게 드세요",
            "내일 추가 운동을 계획해보세요" ]
        else
          [ "적당한 양으로 즐기세요",
            "야채 위주로 선택하세요" ]) := by
  simp only [analyze_schedule_impact, h, if_true]
  rfl

/-- C8 witness: event "팀 회식" with 1200 kcal eaten and a 1600 kcal
target projects 2000 kcal > 1920 = 1.2 × 1600 and yields exactly the four
over-threshold suggestions. -/
theorem analyze_schedule_impact_company_dinner_witness :
    analyze_schedule_impact "팀 회식" 1200 1600 =
      .company_dinner 800 2000 1600 400
        [ "회식 전 가벼운 샐러드로 배를 채우세요",
          "알코올 섭취를 줄이고 물을 많이 드세요",
          "다음날 아침은 가볍게 드세요",
          "내일 추가 운동을 계획해보세요" ] := by
  rw [analyze_schedule_impact_company_dinner "팀 회식" 1200 1600 (by decide)]
  rw [if_pos (by norm_num)]
  norm_num

/-! ## C9: image MIME sniffing (backend/agents/core/bedrock_agent.py) -/

/-- The magic-byte sniffing in _analyze_food_image (bedrock_agent.py lines
228-235): default "image/jpeg", overridden by the PNG signature
0x89 'P' 'N' 'G', the JPEG signature 0xff 0xd8 0xff, or the ASCII bytes
"GIF" — in that order.  Image bytes are modelled as List Nat. -/
def detect_media_type (image_data : List Nat) : String :=
  if [0x89, 0x50, 0x4E, 0x47].isPrefixOf image_data then "image/png"
  else if [0xff, 0xd8, 0xff].isPrefixOf image_data then "image/jpeg"
  else if [0x47, 0x49, 0x46].isPrefixOf image_data then "image/gif"
  else "image/jpeg"

/-- C9: PNG-signature inputs classify as image/png, JPEG-signature inputs
as image/jpeg, GIF-signature inputs as image/gif, and all other inputs
default to image/jpeg. -/
theorem detect_media_type_spec (image_data : List Nat) :
    ([0x89, 0x50, 0x4E, 0x47].isPrefixOf image_data = true →
      detect_media_type image_data = "image/png") ∧
    ([0xff, 0xd8, 0xff].isPrefixOf image_data = true →
      detect_media_type image_data = "image/jpeg") ∧
    ([0x47, 0x49, 0x46].isPrefixOf image_data = true →
      detect_media_type image_data = "image/gif") ∧
    ([0x89, 0x50, 0x4E, 0x47].isPrefixOf image_data = false →
      [0xff, 0xd8, 0xff].isPrefixOf image_data = false →
      [0x47, 0x49, 0x46].isPrefixOf image_data = false →
      detect_media_type image_data = "image/jpeg") := by
  refine ⟨?_, ?_, ?_, ?_⟩
  · intro h
    obtain ⟨t, rfl⟩ := List.isPrefixOf_iff_prefix.mp h
    simp [detect_media_type, List.isPrefixOf]
  · intro h
    obtain ⟨t, rfl⟩ := List.isPrefixOf_iff_prefix.mp h
    simp [detect_media_type, List.isPrefixOf]
  · intro h
    obtain ⟨t, rfl⟩ := List.isPrefixOf_iff_prefix.mp h
    simp [detect_media_type, List.isPrefixOf]
  · intro h1 h2 h3
    simp [detect_media_type, h1, h2, h3]

/-- C9 witness: one concrete byte sequence per branch. -/
theorem detect_media_type_spec_witness :
    detect_media_type [0x89, 0x50, 0x4E, 0x47, 0x0d] = "image/png" ∧
    detect_media_type [0xff, 0xd8, 0xff, 0xe0] = "image/jpeg" ∧
    detect_media_type [0x47, 0x49, 0x46, 0x38] = "image/gif" ∧
    detect_media_type [0x42, 0x4d, 0x00] = "image/jpeg" :=
  ⟨(detect_media_type_spec _).1 (by decide),
    (detect_media_type_spec _).2.1 (by decide),
    (detect_media_type_spec _).2.2.1 (by decide),
    (detect_media_type_spec _).2.2.2 (by decide) (by decide) (by decide)⟩

/-! ## C10: get_meal_analysis_summary and the missing timedelta import -/

/-- food_analysis_pipeline.py line 7 reads
    from datetime import datetime
so the module's namespace binds datetime but NOT timedelta; this constant
records that fact. -/
def timedelta_in_namespace : Bool := false

/-- The value get_meal_analysis_summary returns. -/
inductive MealSummaryResult where
  | failure (msg : String)
  | no_records (msg : String)
  | summary (total_meals : Nat)
      (average_calories_per_meal average_protein_per_meal : ℚ)
deriving DecidableEq

/-- FoodAnalysisPipeline.get_meal_analysis_summary (lines 289-359).  Its
body evaluates timedelta(days=date_range_days) at line 307 before any
query; since the name timedelta is unbound in the module, this raises
NameError, which the blanket except at lines 357-359 converts to the error
dict.  The branch guarded by timedelta_in_namespace models the statistics
the code would compute if the name resolved (meal count and per-meal
averages; the meal-type distribution and top-5 food frequency of lines
323-351, which sit strictly after the failing name reference, are elided
— they are unreachable the same way and no claim mentions them). -/
def get_meal_analysis_summary (meals : List MealRecord) : MealSummaryResult :=
  if timedelta_in_namespace then
    if meals.isEmpty then .no_records "분석할 식사 기록이 없습니다."
    else
      .summary meals.length
        (round2 ((meals.map (fun m => m.total_nutrition.calories)).sum /
          meals.length))
        (round2 ((meals.map (fun m => m.total_nutrition.protein)).sum /
          meals.length))
  else .failure "분석 요약 생성 중 오류가 발생했습니다."

/-- C10: for every input — including users with stored meals — the summary
method returns the fixed error dict and never a statistics summary,
because the unbound name timedelta raises before any query. -/
theorem get_meal_analysis_summary_always_error (meals : List MealRecord) :
    get_meal_analysis_summary meals =
      .failure "분석 요약 생성 중 오류가 발생했습니다." := rfl

end DietCoach
